import Mathlib

/-!
Shallow embedding of the QAPerformanceMetrics story-assessment pipeline.

Python floats are modelled as rationals (`ℚ`); Python `round(x, n)` is
modelled as rounding to `n` decimal places (`roundq`); Python string data is
modelled as `List Char`; fallible Python code (code that can raise) is
modelled with `Except String`.
-/

namespace QAPerf

/-- Python `round(x, n)` modelled over ℚ: round to `n` decimal places. -/
def roundq (n : ℕ) (x : ℚ) : ℚ := (round (x * (10 : ℚ) ^ n) : ℚ) / (10 : ℚ) ^ n

/-- `max(0, min(value, 100))`, the clamp used throughout the engines. -/
def clampQ (x : ℚ) : ℚ := max 0 (min x 100)

-- ======================================================
-- src/app/engines/performance_engine.py
-- ======================================================

structure ExecutionResult where
  execution_score : ℚ
  risk_level : String
deriving Repr, DecidableEq

/-- `calculate_qa_execution_score` from `src/app/engines/performance_engine.py`.
Numeric inputs are already numbers in this model, so `_to_number` is the
identity and `_clamp` is `clampQ`. -/
def calculate_qa_execution_score (coverage scenario_index test_depth : ℚ) :
    ExecutionResult :=
  let coverage := clampQ coverage
  let scenario_index := clampQ scenario_index
  let test_depth := clampQ test_depth
  if coverage = 0 then
    { execution_score := 0, risk_level := "Critical" }
  else
    let execution_score :=
      roundq 2 (clampQ (coverage * 0.6 + scenario_index * 0.25 + test_depth * 0.15))
    let risk_level :=
      if coverage < 40 then "Critical"
      else if coverage < 60 then "High"
      else if execution_score < 60 then "Medium"
      else "Low"
    { execution_score := execution_score, risk_level := risk_level }

-- ======================================================
-- src/performance_engine.py (calculate_qii)
-- ======================================================

structure QiiResult where
  qii : ℚ
  base_score : ℚ
  risk_level : String
  cap_applied : Option ℚ
deriving Repr, DecidableEq

/-- `calculate_qii` from `src/performance_engine.py`.  The transparency
`breakdown` dict is omitted except for its `"Coverage Cap Applied"` entry,
which is kept as `cap_applied`; `x or 0` on a numeric input is the identity
except that `complexity_score or 1.0` turns a zero complexity into `1`. -/
def calculate_qii (coverage scenario_index test_depth governance_score
    ac_quality_score complexity_score : ℚ) (critical_gap : Bool) : QiiResult :=
  let complexity_score := if complexity_score = 0 then 1 else complexity_score
  let coverage := max 0 (min coverage 100)
  let scenario_index := max 0 (min scenario_index 100)
  let test_depth := max 0 (min test_depth 100)
  let governance_score := max 0 (min governance_score 100)
  let ac_quality_score := max 0 (min ac_quality_score 100)
  if coverage = 0 then
    { qii := 0, base_score := 0, risk_level := "Critical", cap_applied := none }
  else
    let total_weight : ℚ := 0.25 + 0.20 + 0.15 + 0.15 + 0.10
    let weighted_sum :=
      coverage * 0.25 + scenario_index * 0.20 + test_depth * 0.15 +
        governance_score * 0.15 + ac_quality_score * 0.10
    let base_score := weighted_sum / total_weight
    let base_score := if critical_gap then base_score * 0.85 else base_score
    let adjusted_score := base_score * complexity_score
    let cap_applied : Option ℚ :=
      if coverage < 30 then some 45
      else if coverage < 40 then some 55
      else if coverage < 50 then some 65
      else if coverage < 60 then some 75
      else none
    let adjusted_score :=
      match cap_applied with
      | some cap => min adjusted_score cap
      | none => adjusted_score
    let final_score := roundq 2 (min adjusted_score 100)
    let risk_level :=
      if coverage < 40 then "Critical"
      else if coverage < 60 then "High"
      else if critical_gap then "High"
      else if final_score < 60 then "Medium"
      else "Low"
    { qii := final_score, base_score := roundq 2 base_score,
      risk_level := risk_level, cap_applied := cap_applied }

-- ======================================================
-- src/main.py : severe-violation override and result record
-- ======================================================

structure StoryRecord where
  coverage : ℚ
  scenario_coverage : ℚ
  test_depth : ℚ
  governance : ℚ
  ac_quality : ℚ
  qa_performance : ℚ
  risk : String
  compliance : String
deriving Repr, DecidableEq

/-- The tail of `process_story` in `src/main.py` (QA execution score,
severe-violation override, and final record), given the upstream metrics
already computed for the story. -/
def finalize_story_record (coverage validation_coverage test_depth_score
    governance_score ac_quality_score : ℚ) (compliance_status : String)
    (severe_violation : Bool) : StoryRecord :=
  let execution_data :=
    calculate_qa_execution_score coverage validation_coverage test_depth_score
  let execution_score := execution_data.execution_score
  let risk_level := execution_data.risk_level
  let coverage := if severe_violation then 0 else coverage
  let validation_coverage := if severe_violation then 0 else validation_coverage
  let test_depth_score := if severe_violation then 0 else test_depth_score
  let execution_score := if severe_violation then 0 else execution_score
  let risk_level := if severe_violation then "Critical" else risk_level
  { coverage := roundq 2 coverage
    scenario_coverage := roundq 2 validation_coverage
    test_depth := roundq 2 test_depth_score
    governance := roundq 2 governance_score
    ac_quality := roundq 2 ac_quality_score
    qa_performance := roundq 2 execution_score
    risk := risk_level
    compliance := compliance_status }

-- ======================================================
-- Text utilities (src/app/engines/coverage.py, top of file)
-- ======================================================

/-- The whitespace class of Python's regex `\s` (ASCII) and `str.split()`. -/
def isPySpace (c : Char) : Bool :=
  c == ' ' || c == '\t' || c == '\n' || c == '\r' || c == '\x0b' || c == '\x0c'

/-- A regex word character (`\w`, ASCII): letters, digits, underscore. -/
def isWordChar (c : Char) : Bool := c.isAlphanum || c == '_'

def isLowerAlphaNum (c : Char) : Bool :=
  ('a' ≤ c && c ≤ 'z') || ('0' ≤ c && c ≤ '9')

/-- `normalize_text` from `src/app/engines/coverage.py` (the identical copy in
`scenario_gap_engine.py` is the same function): lower-case, then replace every
character outside `[a-z0-9\s]` by a space. -/
def normalize (l : List Char) : List Char :=
  (l.map Char.toLower).map (fun c => if isLowerAlphaNum c || isPySpace c then c else ' ')

/-- Python substring containment `pat in text`. -/
def strContains (text pat : List Char) : Bool :=
  (List.range (text.length + 1)).any (fun i =>
    decide ((text.drop i).take pat.length = pat))

def wordCharAt (text : List Char) (i : ℕ) : Bool :=
  match text[i]? with
  | some c => isWordChar c
  | none => false

/-- `word_match` from `src/app/engines/coverage.py`:
`re.search(rf"\b{re.escape(keyword)}\b", text)`.  An occurrence of `keyword`
starting at position `i` matches iff the characters adjacent to the occurrence
(if any) are not word characters. -/
def wordMatch (text keyword : List Char) : Bool :=
  (List.range (text.length + 1)).any (fun i =>
    decide ((text.drop i).take keyword.length = keyword) &&
    (decide (i = 0) || !wordCharAt text (i - 1)) &&
    !wordCharAt text (i + keyword.length))

theorem length_dropWhile_le (p : Char → Bool) (l : List Char) :
    (l.dropWhile p).length ≤ l.length := by
  induction l with
  | nil => simp [List.dropWhile]
  | cons a l ih =>
    simp only [List.dropWhile]
    split
    · exact Nat.le_succ_of_le ih
    · simp

/-- Split a character list at the separators satisfying `p`, returning the
maximal runs of non-separator characters. -/
def splitRuns (p : Char → Bool) : List Char → List (List Char)
  | [] => []
  | c :: rest =>
    if p c then splitRuns p rest
    else (c :: rest.takeWhile (fun d => !p d)) ::
      splitRuns p (rest.dropWhile (fun d => !p d))
termination_by l => l.length
decreasing_by
  · simp only [List.length_cons]
    omega
  · simp only [List.length_cons]
    exact Nat.lt_succ_of_le (length_dropWhile_le _ _)

/-- Python `str.split()` (no separator argument): split on runs of whitespace,
discarding empty chunks. -/
def splitWs : List Char → List (List Char) := splitRuns isPySpace

/-- The whole tokens of the regex `\b` boundary semantics: the maximal runs
of word characters of a text. -/
def wordRuns (l : List Char) : List (List Char) :=
  splitRuns (fun c => !isWordChar c) l

/-- Python `str.strip()`: remove leading and trailing whitespace. -/
def pyStrip (l : List Char) : List Char :=
  ((l.dropWhile isPySpace).reverse.dropWhile isPySpace).reverse

-- ======================================================
-- Keyword sets (src/app/engines/coverage.py)
-- ======================================================

def strList (l : List String) : List (List Char) := l.map String.toList

def STOPWORDS : List (List Char) := strList
  ["the", "a", "an", "to", "of", "for", "in", "on",
   "and", "or", "is", "are", "be", "should", "must",
   "user", "system", "able", "can", "when", "then",
   "with", "by", "as", "at", "it"]

def HIGH_SIGNAL_TERMS : List (List Char) := strList
  ["update", "delete", "insert", "sync",
   "due", "date", "trigger", "assign",
   "record", "complete", "error",
   "validation", "manual", "automatic",
   "offline", "api", "endpoint",
   "migration", "script", "schema",
   "metadata", "patch", "get"]

def SCOPE_EXCLUSION_TERMS : List (List Char) := strList
  ["not covered", "out of scope", "will be skipped", "skipped",
   "planned for next", "future ticket", "future enhancement", "not included"]

def TECHNICAL_TERMS : List (List Char) := strList
  ["migration", "script", "schema", "seed", "database", "backend",
   "stored procedure", "job", "data setup"]

-- ======================================================
-- AC intent classification and coverage (src/app/engines/coverage.py)
-- ======================================================

/-- `classify_ac_intent`: scope-exclusion terms are matched by plain substring
containment (`term in lower_text`), technical terms by `word_match`. -/
def classify_ac_intent (ac_text : List Char) : String :=
  let lower_text := normalize ac_text
  if SCOPE_EXCLUSION_TERMS.any (fun term => strContains lower_text term) then
    "Scope Exclusion"
  else if TECHNICAL_TERMS.any (fun term => wordMatch lower_text term) then
    "Technical"
  else "Functional"

/-- `tokenize`: normalized words minus stopwords. -/
def tokenize (text : List Char) : List (List Char) :=
  (splitWs (normalize text)).filter (fun w => !STOPWORDS.contains w)

/-- `weighted_keyword_overlap`: weighted token overlap; high-signal tokens
weigh 2, all others 1. -/
def weighted_keyword_overlap (ac test_text : List Char) : ℚ :=
  let ac_words := tokenize ac
  let test_words := tokenize test_text
  if ac_words = [] then 0
  else
    let total_weight :=
      (ac_words.map (fun w => if HIGH_SIGNAL_TERMS.contains w then 2 else 1)).sum
    let matched_weight :=
      (ac_words.map (fun w =>
        if test_words.contains w then
          (if HIGH_SIGNAL_TERMS.contains w then 2 else 1) else 0)).sum
    if total_weight = 0 then 0 else (matched_weight : ℚ) / (total_weight : ℚ)

/-- `behavioral_validation_score`: seven fixed binary behavioral signals. -/
def behavioral_validation_score (test_text : List Char) : ℚ :=
  let text := normalize test_text
  let signals : List Bool :=
    [wordMatch text "get".toList,
     wordMatch text "patch".toList,
     wordMatch text "update".toList,
     wordMatch text "reload".toList || wordMatch text "persistence".toList,
     wordMatch text "unauthorized".toList || wordMatch text "forbidden".toList,
     wordMatch text "metadata".toList || wordMatch text "column".toList,
     wordMatch text "validate".toList || wordMatch text "required".toList]
  (signals.count true : ℚ) / (signals.length : ℚ)

/-- `classify_score`: coverage bucket labels. -/
def classify_score (percent : ℚ) : String :=
  if percent ≥ 80 then "Strong"
  else if percent ≥ 50 then "Moderate"
  else if percent > 0 then "Weak"
  else "Missing"

structure ACCoverageEntry where
  ac_number : ℕ
  score : Option ℚ
  category : String
  type : String
  text : List Char
deriving Repr, DecidableEq

/-- The loop body of `evaluate_ac_coverage`, walking the criterion list and
accumulating (total score, count of non-excluded criteria, per-criterion
entries); `i` is the 1-based ordinal of the first criterion. -/
def coverAux (test_text : List Char) : ℕ → List (List Char) →
    ℚ × ℕ × List ACCoverageEntry
  | _, [] => (0, 0, [])
  | i, ac :: rest =>
    let tail := coverAux test_text (i + 1) rest
    let ac_type := classify_ac_intent ac
    if ac_type = "Scope Exclusion" then
      (tail.1, tail.2.1, ⟨i, none, "Excluded", ac_type, ac⟩ :: tail.2.2)
    else if ac_type = "Technical" then
      let score := behavioral_validation_score test_text
      let percent := roundq 2 (score * 100)
      (score + tail.1, tail.2.1 + 1,
        ⟨i, some percent, classify_score percent, ac_type, ac⟩ :: tail.2.2)
    else
      let score := weighted_keyword_overlap ac test_text
      let percent := roundq 2 (score * 100)
      (score + tail.1, tail.2.1 + 1,
        ⟨i, some percent, classify_score percent, ac_type, ac⟩ :: tail.2.2)

/-- `evaluate_ac_coverage` from `src/app/engines/coverage.py`. -/
def evaluate_ac_coverage (ac_list : List (List Char)) (test_text : List Char) :
    ℚ × List ACCoverageEntry :=
  if ac_list = [] then (0, [])
  else
    let r := coverAux test_text 1 ac_list
    (if r.2.1 = 0 then 0 else roundq 2 (r.1 / (r.2.1 : ℚ) * 100), r.2.2)

/-- The per-criterion raw score (fraction in [0,1]) that a non-excluded
criterion contributes to the coverage mean: the behavioral score for
technical criteria, the weighted overlap otherwise. -/
def nonExcludedScore (test_text ac : List Char) : ℚ :=
  if classify_ac_intent ac = "Technical" then behavioral_validation_score test_text
  else weighted_keyword_overlap ac test_text

/-- The criteria of a list that are not classified as scope exclusions. -/
def nonExcluded (ac_list : List (List Char)) : List (List Char) :=
  ac_list.filter (fun ac => classify_ac_intent ac ≠ "Scope Exclusion")

-- ======================================================
-- src/app/engines/governance_engine.py
-- ======================================================

def CLARITY_WEIGHT : ℚ := 0.25
def VALIDATION_WEIGHT : ℚ := 0.30
def TRACEABILITY_WEIGHT : ℚ := 0.25
def DOCUMENTATION_WEIGHT : ℚ := 0.20

/-- `re.sub(r"<[^>]+>", "", _)`: locate the first `'>'` in the list, returning
the characters before it and the rest after it. -/
def findGt : List Char → Option (List Char × List Char)
  | [] => none
  | c :: rest =>
    if c = '>' then some ([], rest)
    else (findGt rest).map (fun p => (c :: p.1, p.2))

/-- Removal of `<[^>]+>` tags, with a structural fuel argument; each step
consumes at least one character, so fuel `l.length` always suffices. -/
def removeTagsFuel : ℕ → List Char → List Char
  | 0, l => l
  | _ + 1, [] => []
  | fuel + 1, c :: rest =>
    if c = '<' then
      match findGt rest with
      | some (before, after) =>
        if before = [] then c :: removeTagsFuel fuel rest
        else removeTagsFuel fuel after
      | none => c :: removeTagsFuel fuel rest
    else c :: removeTagsFuel fuel rest

/-- Python `re.sub(r"<[^>]+>", "", text)`: strip HTML-like tags. -/
def removeTags (l : List Char) : List Char := removeTagsFuel l.length l

/-- `calculate_documentation_quality`; the only field the source consumes is
`fields.get("System.Description", "") or ""`, modelled here directly as the
description text. -/
def calculate_documentation_quality (description : List Char) : ℚ :=
  if pyStrip description = [] then 0
  else
    let desc_lower := description.map Char.toLower
    if strContains desc_lower "<img".toList ∧ (pyStrip description).length < 200 then 30
    else
      let clean_text := pyStrip (removeTags description)
      if clean_text = [] then 0
      else if clean_text.length < 40 then 40
      else if clean_text.length < 120 then 70
      else 100

/-- `calculate_traceability` from `src/app/engines/governance_engine.py`. -/
def calculate_traceability (ac_count tc_count : ℤ) : ℚ :=
  if ac_count ≤ 0 ∨ tc_count ≤ 0 then 0
  else
    let ratio : ℚ := (tc_count : ℚ) / (ac_count : ℚ)
    if ratio ≥ 1 then 100
    else if ratio ≥ 0.75 then 80
    else if ratio ≥ 0.5 then 60
    else if ratio > 0 then 40
    else 0

/-- `calculate_clarity_score` from `src/app/engines/governance_engine.py`. -/
def calculate_clarity_score (ac_list : List (List Char)) (ac_quality_score : ℚ) : ℚ :=
  if ac_list.length = 0 then 0
  else
    let clarity := clampQ ac_quality_score
    if ac_list.length = 1 ∧ clarity < 80 then min clarity 65 else clarity

/-- The validation-pillar computation inlined in `calculate_governance_score`
(lines 165–171): scenario coverage, capped at 70 when it exceeds 80 while
structural coverage is below 50. -/
def governance_validation_pillar (structural_coverage validation_coverage : ℚ) : ℚ :=
  let validation_score := validation_coverage
  let validation_score :=
    if validation_score > 80 ∧ structural_coverage < 50 then min validation_score 70
    else validation_score
  clampQ validation_score

structure GovPillars where
  clarity : ℚ
  validation : ℚ
  traceability : ℚ
  documentation : ℚ
deriving Repr, DecidableEq

structure GovWeights where
  clarity : ℚ
  validation : ℚ
  traceability : ℚ
  documentation : ℚ
deriving Repr, DecidableEq

structure GovernanceResult where
  governance_score : ℚ
  pillars : GovPillars
  weights_used : GovWeights
deriving Repr, DecidableEq

/-- `calculate_governance_score` from `src/app/engines/governance_engine.py`;
of the `fields` dict only the description is consumed (by the documentation
pillar), so it is passed as `description`. -/
def calculate_governance_score (ac_list : List (List Char))
    (ac_quality_score : ℚ) (tc_count : ℤ)
    (structural_coverage validation_coverage : ℚ)
    (description : List Char) : GovernanceResult :=
  let ac_count : ℤ := ac_list.length
  let structural_coverage := clampQ structural_coverage
  let validation_coverage := clampQ validation_coverage
  let clarity_score := calculate_clarity_score ac_list ac_quality_score
  let validation_score := governance_validation_pillar structural_coverage validation_coverage
  let traceability_score := clampQ (calculate_traceability ac_count tc_count)
  let documentation_score := clampQ (calculate_documentation_quality description)
  if tc_count = 0 then
    let total_remaining_weight := CLARITY_WEIGHT + VALIDATION_WEIGHT + DOCUMENTATION_WEIGHT
    let clarity_w := CLARITY_WEIGHT / total_remaining_weight
    let validation_w := VALIDATION_WEIGHT / total_remaining_weight
    let documentation_w := DOCUMENTATION_WEIGHT / total_remaining_weight
    let governance_score :=
      clarity_score * clarity_w + validation_score * validation_w +
        documentation_score * documentation_w
    { governance_score := roundq 2 (clampQ governance_score)
      pillars := ⟨roundq 2 clarity_score, roundq 2 validation_score,
        roundq 2 traceability_score, roundq 2 documentation_score⟩
      weights_used := ⟨roundq 4 clarity_w, roundq 4 validation_w, 0,
        roundq 4 documentation_w⟩ }
  else
    let governance_score :=
      clarity_score * CLARITY_WEIGHT + validation_score * VALIDATION_WEIGHT +
        traceability_score * TRACEABILITY_WEIGHT +
        documentation_score * DOCUMENTATION_WEIGHT
    { governance_score := roundq 2 (clampQ governance_score)
      pillars := ⟨roundq 2 clarity_score, roundq 2 validation_score,
        roundq 2 traceability_score, roundq 2 documentation_score⟩
      weights_used := ⟨CLARITY_WEIGHT, VALIDATION_WEIGHT, TRACEABILITY_WEIGHT,
        DOCUMENTATION_WEIGHT⟩ }

-- ======================================================
-- src/app/engines/workflow_compliance_engine.py
-- ======================================================

/-- Python `(s or "").strip().lower()`. -/
def pyStripLower (s : String) : String := ⟨(pyStrip s.toList).map Char.toLower⟩

/-- `t1 and t2 and t1 < t2` for optional timestamps (a `datetime` is always
truthy in Python, so the guard is exactly both-present-and-ordered). -/
def timeLt : Option ℤ → Option ℤ → Bool
  | some a, some b => decide (a < b)
  | _, _ => false

/-- `evaluate_compliance` from `src/app/engines/workflow_compliance_engine.py`.
Timestamps are modelled as optional integers (ordered timestamps). -/
def evaluate_compliance (state : String) (tests_authored tests_reviewed : Bool)
    (test_states : List String) (tc_count : ℤ) (state_history : List String)
    (review_lifecycle_detected : Bool)
    (review_toggle_time earliest_test_created_time passed_qa_time : Option ℤ) :
    String × Bool :=
  let state := pyStripLower state
  let test_states := test_states.map pyStripLower
  let states := state_history.map pyStripLower
  -- critical structural rules (severe)
  let c1 : Bool := decide (state = "passed qa") &&
    timeLt passed_qa_time earliest_test_created_time
  let c2 : Bool := tests_reviewed &&
    timeLt review_toggle_time earliest_test_created_time
  let c3 : Bool := tests_authored && decide (tc_count = 0)
  -- test governance rules
  let g1 : Bool := !tests_authored && decide (tc_count > 0)
  let g2 : Bool := !tests_authored && decide (tc_count > 0) &&
    test_states.any (fun s => decide (s ≠ "design"))
  let g3 : Bool := tests_authored && !tests_reviewed && decide (tc_count > 0) &&
    test_states.any (fun s => decide (s ≠ "needs review"))
  -- review lifecycle discipline
  let rlBase : Bool := tests_reviewed && decide (tc_count > 0) &&
    !review_lifecycle_detected
  let rlSoft : Bool := rlBase && test_states.any (fun s => decide (s = "ready"))
  let rlHard : Bool := rlBase && !test_states.any (fun s => decide (s = "ready"))
  -- passed QA validation
  let p0 : Bool := decide (state = "passed qa") && decide (tc_count = 0)
  let p1 : Bool := decide (state = "passed qa") && !tests_authored
  let p2 : Bool := decide (state = "passed qa") && !tests_reviewed
  let p3 : Bool := decide (state = "passed qa") &&
    test_states.any (fun s => decide (s = "needs review"))
  let p4 : Bool := decide (state = "passed qa") && decide (tc_count > 0) &&
    test_states.any (fun s => decide (s ≠ "ready"))
  -- workflow governance rules (only when history is non-empty)
  let pairs := states.zip states.tail
  let w1 : Bool := decide (state = "passed qa") && !states.contains "qa in progress"
  let w2 : Bool := decide (state = "passed qa") && states.contains "qa in progress" &&
    decide (2 ≤ states.length) &&
    decide (states[states.length - 2]? ≠ some "qa in progress")
  let w3 : List String := pairs.filterMap (fun p =>
    if p.1 = "rework" ∧ p.2 = "qa in progress" then
      some "Violation - Dev Skipped 'Ready For QA' After Rework (QA Had To Start Without Proper Handoff)"
    else none)
  let w4 : List String := pairs.filterMap (fun p =>
    if p.2 = "qa in progress" then
      if p.1 = "design" ∨ p.1 = "merged" ∨ p.1 = "new" then
        some "Violation - QA Started Before Dev Handoff"
      else if p.1 = "passed qa" then
        some "Violation - Story Reopened After Passed QA"
      else none
    else none)
  let w4sev : Bool := pairs.any (fun p =>
    decide (p.2 = "qa in progress") &&
    decide (p.1 = "design" ∨ p.1 = "merged" ∨ p.1 = "new"))
  let wfViolations : List String :=
    if states = [] then []
    else
      (if w1 then ["Violation - QA Skipped 'QA In Progress' State Before Passing"] else []) ++
      (if w2 then ["Violation - Passed QA Without Active QA Execution"] else []) ++
      w3 ++ w4
  let wfSevere : Bool := if states = [] then false else w4sev
  let violations : List String :=
    (if c1 then ["Violation - Test Cases Created After Story Was Passed QA"] else []) ++
    (if c2 then ["Violation - Review Toggle Enabled Before Test Cases Were Created"] else []) ++
    (if c3 then ["Violation - Tests Authored Toggle Enabled But No Test Cases Exist"] else []) ++
    (if g1 then ["Violation - Test Cases Exist But Tests Authored Toggle Is OFF"] else []) ++
    (if g2 then ["Violation - Test Cases Modified Before Tests Authored Toggle Enabled"] else []) ++
    (if g3 then ["Violation - Tests Authored But Not In 'Needs Review' State"] else []) ++
    (if rlSoft then ["Violation - Test Case Skipped Review Phase (Moved Directly To Ready)"] else []) ++
    (if rlHard then ["Violation - Review Toggle Enabled Without Any Test Case Entering 'Needs Review' State"] else []) ++
    (if p0 then ["Violation - Story Passed QA Without Any Test Cases"] else []) ++
    (if p1 then ["Violation - Story Passed QA Without Tests Authored Toggle Enabled"] else []) ++
    (if p2 then ["Violation - Story Passed QA Without Tests Reviewed Toggle Enabled"] else []) ++
    (if p3 then ["Violation - Test Case Still In 'Needs Review' At Passed QA"] else []) ++
    (if p4 then ["Violation - Story Passed QA But Not All Test Cases Are In 'Ready' State"] else []) ++
    wfViolations
  let severe : Bool := c1 || c2 || c3 || rlHard || p0 || wfSevere
  if violations = [] then ("Compliant", false)
  else (String.intercalate " | " violations, severe)

-- ======================================================
-- Python value model for the advisory-insight argument
-- ======================================================

/-- Untyped Python values, as far as the advisory gates inspect them. -/
inductive PyVal where
  | pnone : PyVal
  | pbool : Bool → PyVal
  | pnum : ℚ → PyVal
  | pstr : String → PyVal
  | plist : List PyVal → PyVal
  | pdict : List (String × PyVal) → PyVal

/-- Python truthiness. -/
def PyVal.truthy : PyVal → Bool
  | .pnone => false
  | .pbool b => b
  | .pnum q => decide (q ≠ 0)
  | .pstr s => decide (s ≠ "")
  | .plist xs => !xs.isEmpty
  | .pdict xs => !xs.isEmpty

def PyVal.isDict : PyVal → Bool
  | .pdict _ => true
  | _ => false

/-- `d.get(k, default)` on a dict. -/
def dictGet (d : List (String × PyVal)) (k : String) (dflt : PyVal) : PyVal :=
  match d.find? (fun p => p.1 == k) with
  | some p => p.2
  | none => dflt

/-- `v.get(k, default)`: raises `AttributeError` unless `v` is a dict. -/
def pyGet (v : PyVal) (k : String) (dflt : PyVal) : Except String PyVal :=
  match v with
  | .pdict d => .ok (dictGet d k dflt)
  | _ => .error "AttributeError"

/-- Python `x or y`. -/
def pyOr (x y : PyVal) : PyVal := if x.truthy then x else y

/-- Python `v < q` for a float literal `q` on the right: numbers and booleans
compare (booleans are ints); anything else raises `TypeError`. -/
def pyLtNum (v : PyVal) (q : ℚ) : Except String Bool :=
  match v with
  | .pnum a => .ok (decide (a < q))
  | .pbool b => .ok (decide ((if b then (1 : ℚ) else 0) < q))
  | _ => .error "TypeError"

/-- Python `len(v)`: lists, strings and dicts are sized; anything else raises
`TypeError`. -/
def pyLen : PyVal → Except String ℤ
  | .plist xs => .ok xs.length
  | .pstr s => .ok s.length
  | .pdict d => .ok d.length
  | _ => .error "TypeError"

-- ======================================================
-- src/AI/ai_adjustment_engine.py
-- ======================================================

/-- `apply_ai_adjustments` from `src/AI/ai_adjustment_engine.py`.  The two
score arguments are floats from the caller, so they stay rational; the insight
is an arbitrary Python value.  A raised exception is an `Except.error`. -/
def apply_ai_adjustments (governance_score coverage : ℚ) (ai_insight : PyVal) :
    Except String (ℚ × ℚ) := do
  if !ai_insight.truthy then return (governance_score, coverage)
  let confidence ← pyGet ai_insight "confidence" (.pnum 0)
  if (← pyLtNum confidence 0.60) then return (governance_score, coverage)
  let amb ← pyGet ai_insight "requirement_ambiguity" .pnone
  let governance_score :=
    if amb.truthy then min governance_score 70 else governance_score
  let missing_dims ← pyGet ai_insight "missing_validation_dimensions" (.plist [])
  let n ← pyLen missing_dims
  let coverage :=
    if 2 ≤ n then min coverage 75
    else if n = 1 then min coverage 85
    else coverage
  let governance_score := max (min governance_score 100) 0
  let coverage := max (min coverage 100) 0
  return (roundq 2 governance_score, roundq 2 coverage)

-- ======================================================
-- src/app/engines/governance_pillar_model.py
-- ======================================================

/-- `recompute_governance_from_pillars`. -/
def recompute_governance_from_pillars (p : GovPillars) : ℚ :=
  let clarity := clampQ p.clarity
  let validation := clampQ p.validation
  let traceability := clampQ p.traceability
  let documentation := clampQ p.documentation
  roundq 2 (clampQ (clarity * CLARITY_WEIGHT + validation * VALIDATION_WEIGHT +
    traceability * TRACEABILITY_WEIGHT + documentation * DOCUMENTATION_WEIGHT))

structure OverrideResult where
  adjusted_pillars : GovPillars
  adjusted_governance : ℚ
  ai_applied : Bool
deriving Repr, DecidableEq

/-- `apply_ai_override` from `src/app/engines/governance_pillar_model.py`.
The base pillars are a well-typed pillar record (the source's non-dict guard
on `base_pillars` cannot fire); the insight is an arbitrary Python value. -/
def apply_ai_override (base_pillars : GovPillars) (ai_insight : PyVal) :
    Except String OverrideResult := do
  let adjusted : GovPillars :=
    ⟨clampQ base_pillars.clarity, clampQ base_pillars.validation,
     clampQ base_pillars.traceability, clampQ base_pillars.documentation⟩
  if !ai_insight.truthy || !ai_insight.isDict then
    return ⟨adjusted, recompute_governance_from_pillars adjusted, false⟩
  let confidence0 ← pyGet ai_insight "confidence" (.pnum 0)
  let confidence := pyOr confidence0 (.pnum 0)
  if (← pyLtNum confidence 0.60) then
    return ⟨adjusted, recompute_governance_from_pillars adjusted, false⟩
  let amb ← pyGet ai_insight "requirement_ambiguity" .pnone
  let adjusted :=
    if amb.truthy then { adjusted with clarity := min adjusted.clarity 60 }
    else adjusted
  let missing0 ← pyGet ai_insight "missing_validation_dimensions" (.plist [])
  let missing_dims := pyOr missing0 (.plist [])
  let adjusted :=
    match missing_dims with
    | .plist xs =>
      if 2 ≤ xs.length then { adjusted with validation := min adjusted.validation 65 }
      else if xs.length = 1 then { adjusted with validation := min adjusted.validation 75 }
      else adjusted
    | _ => adjusted
  let adjusted :=
    if amb.truthy ∧ adjusted.documentation = 100 then
      { adjusted with documentation := 70 }
    else adjusted
  return ⟨adjusted, recompute_governance_from_pillars adjusted, true⟩

/-- The well-typed advisory insight of the data model (§3 of the spec):
ambiguity flag, missing-dimension list (used only by count), confidence. -/
structure AdvisoryInsight where
  requirement_ambiguity : Bool
  missing_validation_dimensions : List String
  confidence : ℚ

/-- The Python dict carrying a well-typed advisory insight. -/
def AdvisoryInsight.toPyVal (i : AdvisoryInsight) : PyVal :=
  .pdict [("requirement_ambiguity", .pbool i.requirement_ambiguity),
          ("missing_validation_dimensions",
            .plist (i.missing_validation_dimensions.map .pstr)),
          ("confidence", .pnum i.confidence)]

/-- The pillar normalization step of `apply_ai_override`. -/
def clampPillars (P : GovPillars) : GovPillars :=
  ⟨clampQ P.clarity, clampQ P.validation, clampQ P.traceability,
   clampQ P.documentation⟩

/-- The pillar caps of `apply_ai_override` on a well-typed insight whose
confidence passes the gate (characterization used by the theorems below). -/
def typedOverridePillars (P : GovPillars) (I : AdvisoryInsight) : GovPillars :=
  let A := clampPillars P
  let A := if I.requirement_ambiguity then { A with clarity := min A.clarity 60 }
           else A
  let A :=
    if 2 ≤ I.missing_validation_dimensions.length then
      { A with validation := min A.validation 65 }
    else if I.missing_validation_dimensions.length = 1 then
      { A with validation := min A.validation 75 }
    else A
  if I.requirement_ambiguity ∧ A.documentation = 100 then
    { A with documentation := 70 }
  else A

-- ======================================================
-- Rounding lemmas
-- ======================================================

theorem roundq_mono {x y : ℚ} (n : ℕ) (h : x ≤ y) : roundq n x ≤ roundq n y := by
  unfold roundq
  have hp : (0 : ℚ) < (10 : ℚ) ^ n := by positivity
  have hm : x * (10 : ℚ) ^ n ≤ y * (10 : ℚ) ^ n := by
    exact mul_le_mul_of_nonneg_right h (le_of_lt hp)
  have hr : round (x * (10 : ℚ) ^ n) ≤ round (y * (10 : ℚ) ^ n) := by
    rw [round_eq, round_eq]
    exact Int.floor_mono (by linarith)
  have hc : ((round (x * (10 : ℚ) ^ n) : ℤ) : ℚ) ≤ ((round (y * (10 : ℚ) ^ n) : ℤ) : ℚ) := by
    exact_mod_cast hr
  exact (div_le_div_iff_of_pos_right hp).mpr hc

theorem roundq_zero (n : ℕ) : roundq n 0 = 0 := by
  unfold roundq
  simp

theorem roundq_intCast (n : ℕ) (k : ℤ) :
    roundq n ((k : ℚ) / (10 : ℚ) ^ n) = (k : ℚ) / (10 : ℚ) ^ n := by
  unfold roundq
  have hp : ((10 : ℚ) ^ n) ≠ 0 := by positivity
  rw [div_mul_cancel₀ _ hp, round_intCast]

theorem roundq_natCast (n : ℕ) (m : ℕ) : roundq n (m : ℚ) = m := by
  have h := roundq_intCast n ((m : ℤ) * (10 : ℤ) ^ n)
  have h2 : (((m : ℤ) * (10 : ℤ) ^ n : ℤ) : ℚ) / (10 : ℚ) ^ n = (m : ℚ) := by
    push_cast
    field_simp
  rw [h2] at h
  exact h

theorem roundq_le_natCast {x : ℚ} (n : ℕ) (m : ℕ) (h : x ≤ m) :
    roundq n x ≤ m := by
  have := roundq_mono n h
  rwa [roundq_natCast] at this

theorem roundq_natCast_le {x : ℚ} (n : ℕ) (m : ℕ) (h : (m : ℚ) ≤ x) :
    (m : ℚ) ≤ roundq n x := by
  have := roundq_mono n h
  rwa [roundq_natCast] at this

theorem clampQ_nonneg (x : ℚ) : 0 ≤ clampQ x := le_max_left _ _

theorem clampQ_le_100 (x : ℚ) : clampQ x ≤ 100 := by
  unfold clampQ
  exact max_le (by norm_num) (min_le_right _ _)

theorem clampQ_eq_self {x : ℚ} (h0 : 0 ≤ x) (h1 : x ≤ 100) : clampQ x = x := by
  unfold clampQ
  rw [min_eq_left h1, max_eq_right h0]

theorem clampQ_mono {x y : ℚ} (h : x ≤ y) : clampQ x ≤ clampQ y := by
  unfold clampQ
  exact max_le_max le_rfl (min_le_min h le_rfl)

theorem clampQ_idem (x : ℚ) : clampQ (clampQ x) = clampQ x :=
  clampQ_eq_self (clampQ_nonneg x) (clampQ_le_100 x)

theorem roundq2_min_cap_le (A : ℚ) (cap : ℕ) :
    roundq 2 (min (min A (cap : ℚ)) 100) ≤ (cap : ℚ) :=
  roundq_le_natCast 2 cap (le_trans (min_le_left _ _) (min_le_right _ _))

-- ======================================================
-- C1
-- ======================================================

/-- C1: when the compliance verdict is severe, the emitted result record has
coverage, scenario coverage, test depth and the final performance score all
forced to 0 and the risk tier forced to "Critical", regardless of the
upstream component scores. -/
theorem severe_violation_forces_zero_record (coverage validation_coverage
    test_depth_score governance_score ac_quality_score : ℚ)
    (compliance_status : String) :
    (finalize_story_record coverage validation_coverage test_depth_score
        governance_score ac_quality_score compliance_status true).coverage = 0 ∧
    (finalize_story_record coverage validation_coverage test_depth_score
        governance_score ac_quality_score compliance_status true).scenario_coverage = 0 ∧
    (finalize_story_record coverage validation_coverage test_depth_score
        governance_score ac_quality_score compliance_status true).test_depth = 0 ∧
    (finalize_story_record coverage validation_coverage test_depth_score
        governance_score ac_quality_score compliance_status true).qa_performance = 0 ∧
    (finalize_story_record coverage validation_coverage test_depth_score
        governance_score ac_quality_score compliance_status true).risk = "Critical" := by
  unfold finalize_story_record
  simp [roundq_zero]

-- ======================================================
-- C2
-- ======================================================

/-- C2: the coverage-bracket cap of `calculate_qii` overrides any higher
computed score: coverage < 30 bounds the final score by 45, coverage < 40 by
55, coverage < 50 by 65, and coverage < 60 by 75, for all other inputs. -/
theorem calculate_qii_coverage_bracket_cap (coverage scenario_index test_depth
    governance_score ac_quality_score complexity_score : ℚ) (critical_gap : Bool) :
    (coverage < 30 → (calculate_qii coverage scenario_index test_depth
      governance_score ac_quality_score complexity_score critical_gap).qii ≤ 45) ∧
    (coverage < 40 → (calculate_qii coverage scenario_index test_depth
      governance_score ac_quality_score complexity_score critical_gap).qii ≤ 55) ∧
    (coverage < 50 → (calculate_qii coverage scenario_index test_depth
      governance_score ac_quality_score complexity_score critical_gap).qii ≤ 65) ∧
    (coverage < 60 → (calculate_qii coverage scenario_index test_depth
      governance_score ac_quality_score complexity_score critical_gap).qii ≤ 75) := by
  have hcle : ∀ b : ℚ, 0 < b → b ≤ 100 → coverage < b → max 0 (min coverage 100) < b := by
    intro b hb hble hcb
    rcases le_total coverage 100 with h | h
    · rw [min_eq_left h]
      exact max_lt hb hcb
    · exfalso
      linarith
  refine ⟨?_, ?_, ?_, ?_⟩ <;> intro h <;> unfold calculate_qii <;>
    by_cases h0 : max 0 (min coverage 100) = 0
  · dsimp only []
    rw [if_pos h0]
    norm_num
  · have h30 := hcle 30 (by norm_num) (by norm_num) h
    dsimp only []
    rw [if_neg h0, if_pos h30]
    dsimp only []
    exact_mod_cast roundq2_min_cap_le _ 45
  · dsimp only []
    rw [if_pos h0]
    norm_num
  · have h40 := hcle 40 (by norm_num) (by norm_num) h
    dsimp only []
    rw [if_neg h0]
    by_cases h30 : max 0 (min coverage 100) < 30
    · rw [if_pos h30]
      dsimp only []
      refine le_trans ?_ (by norm_num : (45 : ℚ) ≤ 55)
      exact_mod_cast roundq2_min_cap_le _ 45
    · rw [if_neg h30, if_pos h40]
      dsimp only []
      exact_mod_cast roundq2_min_cap_le _ 55
  · dsimp only []
    rw [if_pos h0]
    norm_num
  · have h50 := hcle 50 (by norm_num) (by norm_num) h
    dsimp only []
    rw [if_neg h0]
    by_cases h30 : max 0 (min coverage 100) < 30
    · rw [if_pos h30]
      dsimp only []
      refine le_trans ?_ (by norm_num : (45 : ℚ) ≤ 65)
      exact_mod_cast roundq2_min_cap_le _ 45
    · rw [if_neg h30]
      by_cases h40 : max 0 (min coverage 100) < 40
      · rw [if_pos h40]
        dsimp only []
        refine le_trans ?_ (by norm_num : (55 : ℚ) ≤ 65)
        exact_mod_cast roundq2_min_cap_le _ 55
      · rw [if_neg h40, if_pos h50]
        dsimp only []
        exact_mod_cast roundq2_min_cap_le _ 65
  · dsimp only []
    rw [if_pos h0]
    norm_num
  · have h60 := hcle 60 (by norm_num) (by norm_num) h
    dsimp only []
    rw [if_neg h0]
    by_cases h30 : max 0 (min coverage 100) < 30
    · rw [if_pos h30]
      dsimp only []
      refine le_trans ?_ (by norm_num : (45 : ℚ) ≤ 75)
      exact_mod_cast roundq2_min_cap_le _ 45
    · rw [if_neg h30]
      by_cases h40 : max 0 (min coverage 100) < 40
      · rw [if_pos h40]
        dsimp only []
        refine le_trans ?_ (by norm_num : (55 : ℚ) ≤ 75)
        exact_mod_cast roundq2_min_cap_le _ 55
      · rw [if_neg h40]
        by_cases h50 : max 0 (min coverage 100) < 50
        · rw [if_pos h50]
          dsimp only []
          refine le_trans ?_ (by norm_num : (65 : ℚ) ≤ 75)
          exact_mod_cast roundq2_min_cap_le _ 65
        · rw [if_neg h50, if_pos h60]
          dsimp only []
          exact_mod_cast roundq2_min_cap_le _ 75

/-- Witness for C2 at coverage 35 with every other component at 100. -/
theorem calculate_qii_coverage_bracket_cap_witness :
    (35 : ℚ) < 40 ∧ (calculate_qii 35 100 100 100 100 1 false).qii ≤ 55 :=
  ⟨by norm_num,
   (calculate_qii_coverage_bracket_cap 35 100 100 100 100 1 false).2.1 (by norm_num)⟩

-- ======================================================
-- C7
-- ======================================================

/-- C7: with `tc_count = 0` the governance score is computed from only the
clarity, validation and documentation pillars, each weight scaled by
`weight / (1 - 0.25)` so the used weights sum to exactly 1, and the result
reports the traceability pillar as 0 with weight 0. -/
theorem governance_tc_zero_redistributes (ac_list : List (List Char))
    (ac_quality_score structural_coverage validation_coverage : ℚ)
    (description : List Char) :
    CLARITY_WEIGHT / (1 - TRACEABILITY_WEIGHT) +
      VALIDATION_WEIGHT / (1 - TRACEABILITY_WEIGHT) +
      DOCUMENTATION_WEIGHT / (1 - TRACEABILITY_WEIGHT) = 1 ∧
    calculate_governance_score ac_list ac_quality_score 0 structural_coverage
        validation_coverage description =
      { governance_score := roundq 2 (clampQ
          (calculate_clarity_score ac_list ac_quality_score *
              (CLARITY_WEIGHT / (1 - TRACEABILITY_WEIGHT)) +
            governance_validation_pillar (clampQ structural_coverage)
                (clampQ validation_coverage) *
              (VALIDATION_WEIGHT / (1 - TRACEABILITY_WEIGHT)) +
            clampQ (calculate_documentation_quality description) *
              (DOCUMENTATION_WEIGHT / (1 - TRACEABILITY_WEIGHT))))
        pillars := ⟨roundq 2 (calculate_clarity_score ac_list ac_quality_score),
          roundq 2 (governance_validation_pillar (clampQ structural_coverage)
            (clampQ validation_coverage)),
          0,
          roundq 2 (clampQ (calculate_documentation_quality description))⟩
        weights_used := ⟨roundq 4 (CLARITY_WEIGHT / (1 - TRACEABILITY_WEIGHT)),
          roundq 4 (VALIDATION_WEIGHT / (1 - TRACEABILITY_WEIGHT)), 0,
          roundq 4 (DOCUMENTATION_WEIGHT / (1 - TRACEABILITY_WEIGHT))⟩ } := by
  constructor
  · norm_num [CLARITY_WEIGHT, VALIDATION_WEIGHT, TRACEABILITY_WEIGHT,
      DOCUMENTATION_WEIGHT]
  · unfold calculate_governance_score
    have htr : calculate_traceability (ac_list.length : ℤ) 0 = 0 := by
      unfold calculate_traceability
      rw [if_pos (Or.inr le_rfl)]
    have hw : CLARITY_WEIGHT + VALIDATION_WEIGHT + DOCUMENTATION_WEIGHT =
        1 - TRACEABILITY_WEIGHT := by
      norm_num [CLARITY_WEIGHT, VALIDATION_WEIGHT, TRACEABILITY_WEIGHT,
        DOCUMENTATION_WEIGHT]
    rw [if_pos rfl]
    dsimp only []
    rw [htr, hw]
    have hc0 : clampQ 0 = 0 := by
      unfold clampQ
      norm_num
    rw [hc0, roundq_zero]

-- ======================================================
-- C10
-- ======================================================

/-- C10: `calculate_traceability` returns 0 whenever `ac_count ≤ 0`, however
many test cases exist; and a story with linked test cases (`0 < tc_count`) but
zero acceptance criteria gets a traceability pillar of 0 that still carries
the full 0.25 traceability weight in the four-pillar governance sum (the
redistribution branch is taken only when `tc_count = 0`). -/
theorem traceability_zero_ac_full_weight (ac_count tc_count : ℤ)
    (ac_quality_score structural_coverage validation_coverage : ℚ)
    (description : List Char) :
    (ac_count ≤ 0 → calculate_traceability ac_count tc_count = 0) ∧
    (0 < tc_count →
      (calculate_governance_score [] ac_quality_score tc_count
          structural_coverage validation_coverage description).pillars.traceability = 0 ∧
      (calculate_governance_score [] ac_quality_score tc_count
          structural_coverage validation_coverage description).weights_used.traceability =
        TRACEABILITY_WEIGHT ∧
      (calculate_governance_score [] ac_quality_score tc_count
          structural_coverage validation_coverage description).governance_score =
        roundq 2 (clampQ
          (calculate_clarity_score [] ac_quality_score * CLARITY_WEIGHT +
            governance_validation_pillar (clampQ structural_coverage)
              (clampQ validation_coverage) * VALIDATION_WEIGHT +
            0 * TRACEABILITY_WEIGHT +
            clampQ (calculate_documentation_quality description) *
              DOCUMENTATION_WEIGHT))) := by
  have hc0 : clampQ 0 = 0 := by
    unfold clampQ
    norm_num
  constructor
  · intro h
    unfold calculate_traceability
    rw [if_pos (Or.inl h)]
  · intro h
    have htr : calculate_traceability ((([] : List (List Char)).length : ℤ)) tc_count = 0 := by
      unfold calculate_traceability
      rw [if_pos (Or.inl (by simp))]
    have htc : ¬(tc_count = 0) := by omega
    unfold calculate_governance_score
    rw [if_neg htc]
    dsimp only []
    rw [htr, hc0, roundq_zero]
    exact ⟨rfl, rfl, rfl⟩

/-- Witness for C10 at `ac_count = 0`, `tc_count = 3`. -/
theorem traceability_zero_ac_full_weight_witness :
    calculate_traceability 0 3 = 0 ∧
    (calculate_governance_score [] 80 3 70 60 "desc".toList).pillars.traceability = 0 ∧
    (calculate_governance_score [] 80 3 70 60 "desc".toList).weights_used.traceability =
      TRACEABILITY_WEIGHT :=
  ⟨(traceability_zero_ac_full_weight 0 3 80 70 60 "desc".toList).1 le_rfl,
   ((traceability_zero_ac_full_weight 0 3 80 70 60 "desc".toList).2 (by norm_num)).1,
   ((traceability_zero_ac_full_weight 0 3 80 70 60 "desc".toList).2 (by norm_num)).2.1⟩

-- ======================================================
-- C8
-- ======================================================

/-- C8 counterexample: with `testsAuthored = False`, `tcCount = 0`, empty
history, but current state "passed qa", `evaluate_compliance` does not return
`("Compliant", False)` — the passed-QA rules fire (severely), so the claim's
"for every value of the remaining inputs" fails. -/
theorem evaluate_compliance_passed_qa_not_compliant :
    evaluate_compliance "passed qa" false false [] 0 [] false none none none ≠
      ("Compliant", false) := by decide

/-- C8 (amended): `evaluate_compliance` with `testsAuthored = True` and
`tcCount = 0` always reports a severe violation; and with
`testsAuthored = False`, `tcCount = 0` and empty state history it returns
`("Compliant", False)` provided the current state is not "passed qa" and the
reviewed-toggle timestamp rule cannot fire. -/
theorem evaluate_compliance_toggle_rules (state : String)
    (tests_reviewed : Bool) (test_states : List String)
    (state_history : List String) (review_lifecycle_detected : Bool)
    (review_toggle_time earliest_test_created_time passed_qa_time : Option ℤ) :
    (evaluate_compliance state true tests_reviewed test_states 0 state_history
        review_lifecycle_detected review_toggle_time earliest_test_created_time
        passed_qa_time).2 = true ∧
    (pyStripLower state ≠ "passed qa" →
      (tests_reviewed && timeLt review_toggle_time earliest_test_created_time) = false →
      evaluate_compliance state false tests_reviewed test_states 0 []
          review_lifecycle_detected review_toggle_time earliest_test_created_time
          passed_qa_time = ("Compliant", false)) := by
  constructor
  · have key : ∀ (V : List String) (sev : Bool),
        "Violation - Tests Authored Toggle Enabled But No Test Cases Exist" ∈ V →
        sev = true →
        ((if V = [] then (("Compliant", false) : String × Bool)
          else (String.intercalate " | " V, sev)) : String × Bool).2 = true := by
      intro V sev hm hsev
      rw [if_neg (List.ne_nil_of_mem hm)]
      exact hsev
    unfold evaluate_compliance
    dsimp only []
    apply key
    · simp
    · simp
  · intro hstate hrev
    unfold evaluate_compliance
    dsimp only []
    have e1 : decide (pyStripLower state = "passed qa") = false := by
      simpa using hstate
    have e2 : (false && decide ((0 : ℤ) = 0)) = false := by decide
    have e3 : decide ((0 : ℤ) > 0) = false := by decide
    rw [e1, hrev, e2, e3]
    simp

/-- Witness for C8. -/
theorem evaluate_compliance_toggle_rules_witness :
    (evaluate_compliance "design" true false [] 0 ["design"] false none none
      none).2 = true ∧
    evaluate_compliance "design" false false [] 0 [] false none none none =
      ("Compliant", false) :=
  ⟨(evaluate_compliance_toggle_rules "design" false [] ["design"] false none
      none none).1,
   (evaluate_compliance_toggle_rules "design" false [] ["design"] false none
      none none).2 (by decide) (by decide)⟩

-- ======================================================
-- Advisory-gate lemmas
-- ======================================================

theorem pyOr_pnum (a : ℚ) : pyOr (.pnum a) (.pnum 0) = .pnum a := by
  unfold pyOr PyVal.truthy
  by_cases h : a = 0
  · subst h
    simp
  · simp [h]

theorem pyOr_plist_nil (xs : List PyVal) :
    pyOr (.plist xs) (.plist []) = .plist xs := by
  unfold pyOr PyVal.truthy
  by_cases h : xs.isEmpty
  · rw [List.isEmpty_iff] at h
    subst h
    simp
  · simp [h]

/-- Characterization of `apply_ai_override` on a well-typed insight. -/
theorem apply_ai_override_typed (P : GovPillars) (I : AdvisoryInsight) :
    apply_ai_override P I.toPyVal =
      if I.confidence < 0.60 then
        .ok ⟨clampPillars P,
          recompute_governance_from_pillars (clampPillars P), false⟩
      else
        .ok ⟨typedOverridePillars P I,
          recompute_governance_from_pillars (typedOverridePillars P I), true⟩ := by
  by_cases hc : I.confidence < 0.60 <;>
    [rw [if_pos hc]; rw [if_neg hc]] <;>
    simp [apply_ai_override, AdvisoryInsight.toPyVal, pyGet, dictGet,
      PyVal.truthy, PyVal.isDict, pyOr_pnum, pyOr_plist_nil, pyLtNum,
      typedOverridePillars, clampPillars, List.find?, hc, Bind.bind,
      Except.bind, Pure.pure, Except.pure]

/-- Characterization of `apply_ai_adjustments` on a well-typed insight. -/
theorem apply_ai_adjustments_typed (g c : ℚ) (I : AdvisoryInsight) :
    apply_ai_adjustments g c I.toPyVal =
      if I.confidence < 0.60 then .ok (g, c)
      else
        .ok (roundq 2 (max (min (if I.requirement_ambiguity then min g 70 else g) 100) 0),
          roundq 2 (max (min
            (if 2 ≤ I.missing_validation_dimensions.length then min c 75
             else if I.missing_validation_dimensions.length = 1 then min c 85
             else c) 100) 0)) := by
  by_cases hc : I.confidence < 0.60 <;>
    [rw [if_pos hc]; rw [if_neg hc]] <;>
    simp [apply_ai_adjustments, AdvisoryInsight.toPyVal, pyGet, dictGet,
      PyVal.truthy, pyLtNum, pyLen, List.find?, hc, Bind.bind, Except.bind,
      Pure.pure, Except.pure]

theorem recompute_nonneg (p : GovPillars) :
    0 ≤ recompute_governance_from_pillars p := by
  unfold recompute_governance_from_pillars
  have := roundq_natCast_le 2 0 (by
    simpa using clampQ_nonneg (clampQ p.clarity * CLARITY_WEIGHT +
      clampQ p.validation * VALIDATION_WEIGHT +
      clampQ p.traceability * TRACEABILITY_WEIGHT +
      clampQ p.documentation * DOCUMENTATION_WEIGHT))
  simpa using this

theorem recompute_le_100 (p : GovPillars) :
    recompute_governance_from_pillars p ≤ 100 := by
  unfold recompute_governance_from_pillars
  have := roundq_le_natCast 2 100 (clampQ_le_100 (clampQ p.clarity * CLARITY_WEIGHT +
    clampQ p.validation * VALIDATION_WEIGHT +
    clampQ p.traceability * TRACEABILITY_WEIGHT +
    clampQ p.documentation * DOCUMENTATION_WEIGHT))
  simpa using this

theorem recompute_mono {p q : GovPillars} (h1 : p.clarity ≤ q.clarity)
    (h2 : p.validation ≤ q.validation) (h3 : p.traceability ≤ q.traceability)
    (h4 : p.documentation ≤ q.documentation) :
    recompute_governance_from_pillars p ≤ recompute_governance_from_pillars q := by
  unfold recompute_governance_from_pillars
  apply roundq_mono
  apply clampQ_mono
  refine add_le_add (add_le_add (add_le_add ?_ ?_) ?_) ?_
  · exact mul_le_mul_of_nonneg_right (clampQ_mono h1) (by norm_num [CLARITY_WEIGHT])
  · exact mul_le_mul_of_nonneg_right (clampQ_mono h2) (by norm_num [VALIDATION_WEIGHT])
  · exact mul_le_mul_of_nonneg_right (clampQ_mono h3) (by norm_num [TRACEABILITY_WEIGHT])
  · exact mul_le_mul_of_nonneg_right (clampQ_mono h4) (by norm_num [DOCUMENTATION_WEIGHT])

theorem recompute_clampPillars (P : GovPillars) :
    recompute_governance_from_pillars (clampPillars P) =
      recompute_governance_from_pillars P := by
  unfold recompute_governance_from_pillars clampPillars
  simp only [clampQ_idem]

theorem roundq2_centi (k : ℤ) : roundq 2 ((k : ℚ) / 100) = (k : ℚ) / 100 := by
  have := roundq_intCast 2 k
  norm_num at this ⊢
  exact this

theorem recompute_centi (p : GovPillars) :
    ∃ k : ℤ, recompute_governance_from_pillars p = (k : ℚ) / 100 := by
  refine ⟨round ((clampQ (clampQ p.clarity * CLARITY_WEIGHT +
    clampQ p.validation * VALIDATION_WEIGHT +
    clampQ p.traceability * TRACEABILITY_WEIGHT +
    clampQ p.documentation * DOCUMENTATION_WEIGHT)) * (10 : ℚ) ^ 2), ?_⟩
  unfold recompute_governance_from_pillars roundq
  norm_num

theorem typedOverridePillars_le (P : GovPillars) (I : AdvisoryInsight) :
    (typedOverridePillars P I).clarity ≤ clampQ P.clarity ∧
    (typedOverridePillars P I).validation ≤ clampQ P.validation ∧
    (typedOverridePillars P I).traceability = clampQ P.traceability ∧
    (typedOverridePillars P I).documentation ≤ clampQ P.documentation := by
  unfold typedOverridePillars clampPillars
  dsimp only []
  split_ifs with hamb hm2 hm1 hdoc hdoc hm2 hm1 hdoc hdoc hdoc hdoc <;>
    refine ⟨?_, ?_, rfl, ?_⟩ <;>
    simp_all <;>
    first
      | exact min_le_left _ _
      | linarith [clampQ_le_100 P.documentation]

-- ======================================================
-- C3
-- ======================================================

/-- C3 counterexample: on the same underlying pillars (all 100) and the same
confident requirement-ambiguity insight, the pillar gate recomputes governance
84 while the scalar gate caps it at 70 — the two forms do not agree. -/
theorem advisory_gates_disagree :
    apply_ai_override ⟨100, 100, 100, 100⟩
        (AdvisoryInsight.toPyVal ⟨true, [], 1⟩) =
      .ok ⟨⟨60, 100, 100, 70⟩, 84, true⟩ ∧
    apply_ai_adjustments
        (recompute_governance_from_pillars ⟨100, 100, 100, 100⟩) 50
        (AdvisoryInsight.toPyVal ⟨true, [], 1⟩) = .ok (70, 50) ∧
    (84 : ℚ) ≠ 70 := by
  refine ⟨?_, ?_, by norm_num⟩
  · rw [apply_ai_override_typed, if_neg (by norm_num : ¬(1 : ℚ) < 0.60)]
    have h1 : typedOverridePillars ⟨100, 100, 100, 100⟩ ⟨true, [], 1⟩ =
        ⟨60, 100, 100, 70⟩ := by decide
    rw [h1]
    have h2 : recompute_governance_from_pillars
        (⟨60, 100, 100, 70⟩ : GovPillars) = 84 := by
      norm_num [recompute_governance_from_pillars, clampQ, CLARITY_WEIGHT,
        VALIDATION_WEIGHT, TRACEABILITY_WEIGHT, DOCUMENTATION_WEIGHT,
        roundq, round_eq, min_def, max_def]
    rw [h2]
  · rw [apply_ai_adjustments_typed, if_neg (by norm_num : ¬(1 : ℚ) < 0.60)]
    have hg : recompute_governance_from_pillars
        (⟨100, 100, 100, 100⟩ : GovPillars) = 100 := by
      norm_num [recompute_governance_from_pillars, clampQ, CLARITY_WEIGHT,
        VALIDATION_WEIGHT, TRACEABILITY_WEIGHT, DOCUMENTATION_WEIGHT,
        roundq, round_eq, min_def, max_def]
    rw [hg]
    norm_num [roundq, round_eq, min_def, max_def]

/-- C3 (amended): both advisory gates use the same 0.60 confidence gate and
never raise on a well-typed insight; each never increases the governance score
derived from the pillars, and below the confidence gate both are exact no-ops
on that governance score (so there they agree); but on confident insights the
two forms need not agree. -/
theorem advisory_gates_consistency (P : GovPillars) (I : AdvisoryInsight)
    (cov : ℚ) :
    ∃ r p, apply_ai_override P I.toPyVal = .ok r ∧
      apply_ai_adjustments (recompute_governance_from_pillars P) cov
        I.toPyVal = .ok p ∧
      r.adjusted_governance ≤ recompute_governance_from_pillars P ∧
      p.1 ≤ recompute_governance_from_pillars P ∧
      (I.confidence < 0.60 →
        r.adjusted_governance = recompute_governance_from_pillars P ∧
        p.1 = recompute_governance_from_pillars P) := by
  rw [apply_ai_override_typed, apply_ai_adjustments_typed]
  have hg0 : 0 ≤ recompute_governance_from_pillars P := recompute_nonneg P
  have hg100 : recompute_governance_from_pillars P ≤ 100 := recompute_le_100 P
  obtain ⟨k, hk⟩ := recompute_centi P
  have hgr : roundq 2 (recompute_governance_from_pillars P) =
      recompute_governance_from_pillars P := by
    rw [hk]
    exact roundq2_centi k
  by_cases hc : I.confidence < 0.60
  · rw [if_pos hc, if_pos hc]
    exact ⟨_, _, rfl, rfl, le_of_eq (recompute_clampPillars P), le_refl _,
      fun _ => ⟨recompute_clampPillars P, rfl⟩⟩
  · rw [if_neg hc, if_neg hc]
    refine ⟨_, _, rfl, rfl, ?_, ?_, fun h => absurd h hc⟩
    · have l := typedOverridePillars_le P I
      calc recompute_governance_from_pillars (typedOverridePillars P I) ≤
            recompute_governance_from_pillars (clampPillars P) := by
              exact recompute_mono l.1 l.2.1 (le_of_eq l.2.2.1) l.2.2.2
        _ = recompute_governance_from_pillars P := recompute_clampPillars P
    · dsimp only []
      by_cases hamb : I.requirement_ambiguity
      · rw [if_pos hamb]
        have h0 : 0 ≤ min (recompute_governance_from_pillars P) 70 :=
          le_min hg0 (by norm_num)
        have h100 : min (recompute_governance_from_pillars P) 70 ≤ 100 :=
          le_trans (min_le_right _ _) (by norm_num)
        rw [min_eq_left h100, max_eq_left h0]
        rcases le_total (recompute_governance_from_pillars P) 70 with h | h
        · rw [min_eq_left h, hgr]
        · rw [min_eq_right h]
          have : roundq 2 (70 : ℚ) = 70 := by
            have := roundq_natCast 2 70
            simpa using this
          rw [this]
          exact h
      · rw [if_neg hamb]
        rw [min_eq_left hg100, max_eq_left hg0, hgr]

/-- Witness for C3 (amended). -/
theorem advisory_gates_consistency_witness :
    ∃ r p, apply_ai_override ⟨80, 90, 70, 60⟩
        (AdvisoryInsight.toPyVal ⟨true, ["negative"], 0.3⟩) = .ok r ∧
      apply_ai_adjustments
        (recompute_governance_from_pillars ⟨80, 90, 70, 60⟩) 40
        (AdvisoryInsight.toPyVal ⟨true, ["negative"], 0.3⟩) = .ok p ∧
      r.adjusted_governance ≤ recompute_governance_from_pillars ⟨80, 90, 70, 60⟩ ∧
      p.1 ≤ recompute_governance_from_pillars ⟨80, 90, 70, 60⟩ ∧
      ((0.3 : ℚ) < 0.60 →
        r.adjusted_governance = recompute_governance_from_pillars ⟨80, 90, 70, 60⟩ ∧
        p.1 = recompute_governance_from_pillars ⟨80, 90, 70, 60⟩) :=
  advisory_gates_consistency ⟨80, 90, 70, 60⟩ ⟨true, ["negative"], 0.3⟩ 40

-- ======================================================
-- C6
-- ======================================================

/-- C6: the pillar override gate is monotone non-increasing on clarity,
validation and documentation for every in-range pillar set and every
well-typed insight, and below the 0.60 confidence gate it returns the input
pillars exactly. -/
theorem apply_ai_override_nonincreasing (P : GovPillars) (I : AdvisoryInsight)
    (h1 : 0 ≤ P.clarity) (h2 : P.clarity ≤ 100)
    (h3 : 0 ≤ P.validation) (h4 : P.validation ≤ 100)
    (h5 : 0 ≤ P.traceability) (h6 : P.traceability ≤ 100)
    (h7 : 0 ≤ P.documentation) (h8 : P.documentation ≤ 100) :
    ∃ r, apply_ai_override P I.toPyVal = .ok r ∧
      r.adjusted_pillars.clarity ≤ P.clarity ∧
      r.adjusted_pillars.validation ≤ P.validation ∧
      r.adjusted_pillars.documentation ≤ P.documentation ∧
      (I.confidence < 0.60 → r.adjusted_pillars = P) := by
  have hcp : clampPillars P = P := by
    unfold clampPillars
    rw [clampQ_eq_self h1 h2, clampQ_eq_self h3 h4, clampQ_eq_self h5 h6,
      clampQ_eq_self h7 h8]
  rw [apply_ai_override_typed]
  by_cases hc : I.confidence < 0.60
  · rw [if_pos hc]
    exact ⟨_, rfl, by rw [hcp], by rw [hcp], by rw [hcp], fun _ => hcp⟩
  · rw [if_neg hc]
    have l := typedOverridePillars_le P I
    rw [clampQ_eq_self h1 h2, clampQ_eq_self h3 h4, clampQ_eq_self h5 h6,
      clampQ_eq_self h7 h8] at l
    exact ⟨_, rfl, l.1, l.2.1, l.2.2.2, fun h => absurd h hc⟩

/-- Witness for C6. -/
theorem apply_ai_override_nonincreasing_witness :
    ∃ r, apply_ai_override ⟨80, 90, 70, 100⟩
        (AdvisoryInsight.toPyVal ⟨true, ["x"], 0.9⟩) = .ok r ∧
      r.adjusted_pillars.clarity ≤ (80 : ℚ) ∧
      r.adjusted_pillars.validation ≤ (90 : ℚ) ∧
      r.adjusted_pillars.documentation ≤ (100 : ℚ) ∧
      ((0.9 : ℚ) < 0.60 → r.adjusted_pillars = ⟨80, 90, 70, 100⟩) :=
  apply_ai_override_nonincreasing ⟨80, 90, 70, 100⟩ ⟨true, ["x"], 0.9⟩
    (by norm_num) (by norm_num) (by norm_num) (by norm_num)
    (by norm_num) (by norm_num) (by norm_num) (by norm_num)

-- ======================================================
-- C9
-- ======================================================

/-- C9 counterexample: a wrongly-typed confidence raises a `TypeError` in the
pillar gate, and a truthy non-dict insight raises an `AttributeError` in the
scalar gate — malformed insights are not always normalized to a no-op. -/
theorem advisory_gates_raise_on_malformed :
    apply_ai_override ⟨50, 50, 50, 50⟩
        (.pdict [("confidence", .pstr "high")]) = .error "TypeError" ∧
    apply_ai_adjustments 50 50 (.pstr "x") = .error "AttributeError" :=
  ⟨rfl, rfl⟩

/-- C9 (amended): absent (falsy) insights — `None`, empty dict, empty list —
are exact no-ops in both gates without raising, and a truthy non-dict insight
is a no-op in the pillar gate; wrongly-typed field values, however, raise. -/
theorem advisory_gates_absent_insight_noop (g c : ℚ) (P : GovPillars) :
    apply_ai_adjustments g c .pnone = .ok (g, c) ∧
    apply_ai_adjustments g c (.pdict []) = .ok (g, c) ∧
    apply_ai_adjustments g c (.plist []) = .ok (g, c) ∧
    apply_ai_override P .pnone =
      .ok ⟨clampPillars P,
        recompute_governance_from_pillars (clampPillars P), false⟩ ∧
    apply_ai_override P (.pstr "not a dict") =
      .ok ⟨clampPillars P,
        recompute_governance_from_pillars (clampPillars P), false⟩ :=
  ⟨rfl, rfl, rfl, rfl, rfl⟩

-- ======================================================
-- C5
-- ======================================================

theorem coverAux_spec (tt : List Char) :
    ∀ (i : ℕ) (acs : List (List Char)),
      (coverAux tt i acs).1 = ((nonExcluded acs).map (nonExcludedScore tt)).sum ∧
      (coverAux tt i acs).2.1 = (nonExcluded acs).length ∧
      (∀ r ∈ (coverAux tt i acs).2.2,
        classify_ac_intent r.text = "Scope Exclusion" →
          r.score = none ∧ r.category = "Excluded") := by
  intro i acs
  induction acs generalizing i with
  | nil => simp [coverAux, nonExcluded]
  | cons ac rest ih =>
    obtain ⟨ih1, ih2, ih3⟩ := ih (i + 1)
    by_cases h1 : classify_ac_intent ac = "Scope Exclusion"
    · refine ⟨?_, ?_, ?_⟩
      · simp [coverAux, h1, nonExcluded, ih1]
      · simp [coverAux, h1, nonExcluded, ih2]
      · intro r hr hcl
        simp [coverAux, h1] at hr
        rcases hr with hr | hr
        · subst hr
          exact ⟨rfl, rfl⟩
        · exact ih3 r hr hcl
    · by_cases h2 : classify_ac_intent ac = "Technical"
      · refine ⟨?_, ?_, ?_⟩
        · simp [coverAux, h1, h2, nonExcluded, ih1, nonExcludedScore]
        · simp [coverAux, h1, h2, nonExcluded, ih2]
        · intro r hr hcl
          simp [coverAux, h1, h2] at hr
          rcases hr with hr | hr
          · subst hr
            exact absurd hcl h1
          · exact ih3 r hr hcl
      · refine ⟨?_, ?_, ?_⟩
        · simp [coverAux, h1, h2, nonExcluded, ih1, nonExcludedScore]
        · simp [coverAux, h1, h2, nonExcluded, ih2]
        · intro r hr hcl
          simp [coverAux, h1, h2] at hr
          rcases hr with hr | hr
          · subst hr
            exact absurd hcl h1
          · exact ih3 r hr hcl

/-- C5: in `evaluate_ac_coverage` every scope-exclusion criterion is reported
with `score = none` and category "Excluded" and contributes to neither the
numerator nor the denominator: the overall coverage is the mean of the raw
scores over non-excluded criteria only, and it is 0 when no non-excluded
criterion exists (for any test text). -/
theorem evaluate_ac_coverage_scope_exclusion (ac_list : List (List Char))
    (test_text : List Char) :
    (∀ r ∈ (evaluate_ac_coverage ac_list test_text).2,
      classify_ac_intent r.text = "Scope Exclusion" →
        r.score = none ∧ r.category = "Excluded") ∧
    (evaluate_ac_coverage ac_list test_text).1 =
      (if nonExcluded ac_list = [] then 0
       else roundq 2 (((nonExcluded ac_list).map (nonExcludedScore test_text)).sum /
         ((nonExcluded ac_list).length : ℚ) * 100)) := by
  obtain ⟨h1, h2, h3⟩ := coverAux_spec test_text 1 ac_list
  by_cases hnil : ac_list = []
  · subst hnil
    simp [evaluate_ac_coverage, nonExcluded]
  · constructor
    · intro r hr
      apply h3
      simpa [evaluate_ac_coverage, hnil] using hr
    · simp only [evaluate_ac_coverage, hnil, if_neg, reduceIte]
      rw [h1, h2]
      by_cases hz : (nonExcluded ac_list).length = 0
      · rw [List.length_eq_zero] at hz
        simp [hz]
      · have : nonExcluded ac_list ≠ [] := by
          intro h
          exact hz (by simp [h])
        simp [hz, this]

/-- Witness for C5 on a single scope-exclusion criterion. -/
theorem evaluate_ac_coverage_scope_exclusion_witness :
    (∀ r ∈ (evaluate_ac_coverage ["Out of scope: legacy import".toList]
        "some test text".toList).2,
      classify_ac_intent r.text = "Scope Exclusion" →
        r.score = none ∧ r.category = "Excluded") ∧
    (evaluate_ac_coverage ["Out of scope: legacy import".toList]
        "some test text".toList).1 =
      (if nonExcluded ["Out of scope: legacy import".toList] = [] then 0
       else roundq 2 (((nonExcluded ["Out of scope: legacy import".toList]).map
         (nonExcludedScore "some test text".toList)).sum /
         ((nonExcluded ["Out of scope: legacy import".toList]).length : ℚ) * 100)) :=
  evaluate_ac_coverage_scope_exclusion ["Out of scope: legacy import".toList]
    "some test text".toList

-- ======================================================
-- C4
-- ======================================================

theorem splitRuns_cons_sep {p : Char → Bool} {c : Char} (l : List Char)
    (h : p c = true) : splitRuns p (c :: l) = splitRuns p l := by
  rw [splitRuns]
  simp [h]

theorem splitRuns_cons_run {p : Char → Bool} {c : Char} (l : List Char)
    (h : p c = false) :
    splitRuns p (c :: l) =
      (c :: l.takeWhile (fun d => !p d)) ::
        splitRuns p (l.dropWhile (fun d => !p d)) := by
  rw [splitRuns]
  simp [h]

theorem takeWhile_append_of_all {q : Char → Bool} {a : List Char}
    (b : List Char) (h : ∀ x ∈ a, q x = true) :
    (a ++ b).takeWhile q = a ++ b.takeWhile q := by
  induction a with
  | nil => simp
  | cons x xs ih =>
    rw [List.cons_append, List.takeWhile_cons, h x (List.mem_cons_self x xs)]
    simp only [if_true, List.cons_append, List.cons.injEq, true_and]
    exact ih (fun y hy => h y (List.mem_cons_of_mem x hy))

theorem takeWhile_eq_nil_of_head {q : Char → Bool} {b : List Char} {c : Char}
    (hh : b.head? = some c) (hc : q c = false) : b.takeWhile q = [] := by
  cases b with
  | nil => rfl
  | cons x xs =>
    simp only [List.head?_cons, Option.some.injEq] at hh
    subst hh
    rw [List.takeWhile_cons, hc]
    simp

theorem dropWhile_append_of_not_all {q : Char → Bool} {a : List Char}
    (b : List Char) (h : ∃ x ∈ a, q x = false) :
    (a ++ b).dropWhile q = a.dropWhile q ++ b := by
  rw [List.dropWhile_append]
  have hne : a.dropWhile q ≠ [] := by
    intro hnil
    rw [List.dropWhile_eq_nil_iff] at hnil
    obtain ⟨x, hx, hqx⟩ := h
    rw [hnil x hx] at hqx
    simp at hqx
  rw [if_neg (by simpa [List.isEmpty_iff] using hne)]

theorem mem_of_getLast?_eq {l : List Char} {c : Char}
    (h : l.getLast? = some c) : c ∈ l := by
  rw [List.getLast?_eq_getElem?] at h
  exact List.getElem?_mem h

/-- If a list decomposes as `pre ++ kw ++ post` where `kw` is a non-empty run
of non-separator characters, `pre` is empty or ends in a separator, and
`post` is empty or starts with a separator, then `kw` is one of the maximal
runs produced by `splitRuns`. -/
theorem mem_splitRuns_decomp (p : Char → Bool) :
    ∀ (n : ℕ) (pre kw post : List Char),
      (pre ++ kw ++ post).length ≤ n →
      kw ≠ [] → (∀ c ∈ kw, p c = false) →
      (pre = [] ∨ ∃ c, pre.getLast? = some c ∧ p c = true) →
      (post = [] ∨ ∃ c, post.head? = some c ∧ p c = true) →
      kw ∈ splitRuns p (pre ++ kw ++ post) := by
  intro n
  induction n with
  | zero =>
    intro pre kw post hlen hkw _ _ _
    exfalso
    apply hkw
    rw [← List.length_eq_zero]
    simp only [List.length_append] at hlen
    omega
  | succ n ih =>
    intro pre kw post hlen hkw hkwp hpre hpost
    cases pre with
    | nil =>
      obtain ⟨k, ks, rfl⟩ : ∃ k ks, kw = k :: ks := by
        cases kw with
        | nil => exact absurd rfl hkw
        | cons k ks => exact ⟨k, ks, rfl⟩
      have hk : p k = false := hkwp k (List.mem_cons_self k ks)
      rw [List.nil_append, List.cons_append, splitRuns_cons_run _ hk]
      have h1 : (ks ++ post).takeWhile (fun d => !p d) =
          ks ++ post.takeWhile (fun d => !p d) :=
        takeWhile_append_of_all post
          (fun x hx => by rw [hkwp x (List.mem_cons_of_mem k hx)]; rfl)
      have h2 : post.takeWhile (fun d => !p d) = [] := by
        rcases hpost with h | ⟨c, hc1, hc2⟩
        · subst h; rfl
        · exact takeWhile_eq_nil_of_head hc1 (by rw [hc2]; rfl)
      rw [h1, h2, List.append_nil]
      exact List.mem_cons_self _ _
    | cons q qs =>
      by_cases hq : p q = true
      · rw [List.cons_append, List.cons_append, splitRuns_cons_sep _ hq]
        apply ih qs kw post
        · simp only [List.length_cons, List.length_append] at hlen ⊢
          omega
        · exact hkw
        · exact hkwp
        · cases qs with
          | nil => exact Or.inl rfl
          | cons r rs =>
            rcases hpre with h | ⟨c, hc1, hc2⟩
            · exact absurd h (by simp)
            · rw [List.getLast?_cons_cons] at hc1
              exact Or.inr ⟨c, hc1, hc2⟩
        · exact hpost
      · have hq' : p q = false := by
          cases h : p q
          · rfl
          · exact absurd h hq
        rcases hpre with h | ⟨c, hc1, hc2⟩
        · exact absurd h (by simp)
        have hcmem : c ∈ q :: qs := mem_of_getLast?_eq hc1
        have hcqs : c ∈ qs := by
          rcases List.mem_cons.mp hcmem with h | h
          · subst h
            rw [hc2] at hq'
            exact absurd hq' (by decide)
          · exact h
        have hqs_ne : qs ≠ [] := by
          intro h
          rw [h] at hcqs
          simp at hcqs
        have hlast_qs : qs.getLast? = some c := by
          cases qs with
          | nil => exact absurd rfl hqs_ne
          | cons r rs =>
            rw [List.getLast?_cons_cons] at hc1
            exact hc1
        rw [List.cons_append, List.cons_append, splitRuns_cons_run _ hq']
        rw [List.append_assoc]
        have hd : (qs ++ (kw ++ post)).dropWhile (fun d => !p d) =
            qs.dropWhile (fun d => !p d) ++ (kw ++ post) :=
          dropWhile_append_of_not_all _ ⟨c, hcqs, by rw [hc2]; rfl⟩
        rw [hd]
        apply List.mem_cons_of_mem
        rw [← List.append_assoc]
        have hpre'_ne : qs.dropWhile (fun d => !p d) ≠ [] := by
          intro hnil
          rw [List.dropWhile_eq_nil_iff] at hnil
          have := hnil c hcqs
          rw [hc2] at this
          simp at this
        apply ih (qs.dropWhile (fun d => !p d)) kw post
        · have hle := length_dropWhile_le (fun d => !p d) qs
          simp only [List.length_cons, List.length_append] at hlen ⊢
          omega
        · exact hkw
        · exact hkwp
        · right
          refine ⟨c, ?_, hc2⟩
          have hsplit : qs.takeWhile (fun d => !p d) ++
              qs.dropWhile (fun d => !p d) = qs :=
            List.takeWhile_append_dropWhile _ _
          rw [← hsplit, List.getLast?_append] at hlast_qs
          obtain ⟨x, hx⟩ := Option.isSome_iff_exists.mp
            (List.getLast?_isSome.mpr hpre'_ne)
          rw [hx] at hlast_qs ⊢
          simpa using hlast_qs
        · exact hpost

/-- C4 (amended): `word_match` is word-boundary-safe — whenever it reports a
(non-empty, all-word-character) keyword present in a text, the keyword occurs
as one of the text's whole tokens, i.e. as a maximal run of word characters,
never as a proper part of a longer token. -/
theorem wordMatch_whole_token (text kw : List Char) (h1 : kw ≠ [])
    (h2 : kw.all isWordChar = true) (hm : wordMatch text kw = true) :
    kw ∈ wordRuns text := by
  unfold wordMatch at hm
  rw [List.any_eq_true] at hm
  obtain ⟨i, hi, hfi⟩ := hm
  rw [List.mem_range] at hi
  simp only [Bool.and_eq_true, Bool.or_eq_true, decide_eq_true_eq,
    Bool.not_eq_true'] at hfi
  obtain ⟨⟨hslice, hleft⟩, hright⟩ := hfi
  have hilen : i ≤ text.length := by omega
  have hslice_len : kw.length ≤ text.length - i := by
    have hl := congrArg List.length hslice
    simp only [List.length_take, List.length_drop] at hl
    rcases le_total kw.length (text.length - i) with h | h
    · exact h
    · rw [min_eq_right h] at hl
      omega
  have heq0 : text = text.take i ++ (kw ++ text.drop (i + kw.length)) := by
    conv_lhs => rw [← List.take_append_drop i text]
    congr 1
    conv_lhs => rw [← List.take_append_drop kw.length (text.drop i)]
    rw [hslice, List.drop_drop]
  have heq : text = text.take i ++ kw ++ text.drop (i + kw.length) := by
    rw [← List.append_assoc] at heq0
    exact heq0
  have hkwp : ∀ c ∈ kw, (fun c => !isWordChar c) c = false := by
    intro c hc
    rw [List.all_eq_true] at h2
    simp [h2 c hc]
  have hpre : text.take i = [] ∨
      ∃ c, (text.take i).getLast? = some c ∧ (fun c => !isWordChar c) c = true := by
    rcases Nat.eq_zero_or_pos i with h0 | hip
    · exact Or.inl (by rw [h0, List.take_zero])
    · rcases hleft with h0 | hw
      · exact absurd h0 (by omega)
      · right
        have hlt : i - 1 < text.length := by omega
        have hsome := List.getElem?_eq_getElem hlt
        have hw' : isWordChar (text[i - 1]) = false := by
          unfold wordCharAt at hw
          rw [hsome] at hw
          exact hw
        refine ⟨text[i - 1], ?_, by simp [hw']⟩
        rw [List.getLast?_eq_getElem?]
        have hlen_take : (text.take i).length = i := by
          rw [List.length_take]
          exact min_eq_left hilen
        rw [hlen_take, List.getElem?_take, if_pos (by omega)]
        exact hsome
  have hpost : text.drop (i + kw.length) = [] ∨
      ∃ c, (text.drop (i + kw.length)).head? = some c ∧
        (fun c => !isWordChar c) c = true := by
    cases hsc : text[i + kw.length]? with
    | none =>
      left
      rw [← List.head?_eq_none_iff, List.head?_drop]
      exact hsc
    | some c =>
      right
      have hw' : isWordChar c = false := by
        unfold wordCharAt at hright
        rw [hsc] at hright
        exact hright
      refine ⟨c, ?_, by simp [hw']⟩
      rw [List.head?_drop]
      exact hsc
  have hmain := mem_splitRuns_decomp (fun c => !isWordChar c) text.length
    (text.take i) kw (text.drop (i + kw.length))
    (le_of_eq (congrArg List.length heq.symm)) h1 hkwp hpre hpost
  unfold wordRuns
  rw [heq]
  exact hmain

/-- C4 counterexample: the scope-exclusion stage of `classify_ac_intent` uses
plain substring containment, so the criterion text "unskipped" is classified
as a scope exclusion via the keyword "skipped" even though no scope-exclusion
keyword occurs in it as a whole token (no keyword word-matches it). -/
theorem classify_ac_intent_not_boundary_safe :
    classify_ac_intent "unskipped".toList = "Scope Exclusion" ∧
    SCOPE_EXCLUSION_TERMS.all
      (fun t => !wordMatch (normalize "unskipped".toList) t) = true := by
  constructor
  · decide
  · decide

/-- Witness for C4 (amended) on a concrete text and keyword. -/
theorem wordMatch_whole_token_witness :
    "schema".toList ∈ wordRuns "db schema".toList :=
  wordMatch_whole_token "db schema".toList "schema".toList (by decide)
    (by decide) (by decide)

end QAPerf
